import Mathlib

/-!
Verification development for the user/chat backend: a shallow embedding of
the chat query service (getLatestChatMessagesByRoom, getLatestChatMessagesByUserId,
setMessageRead), the leaderboard query, and the bindWalletAddress and updateUser
controllers, together with proofs of the documented properties.
-/

namespace Wallfair

/-- A store identifier (MongoDB ObjectId), modelled as a natural number;
the source only ever compares identifiers for equality (via toString or
native id equality). -/
abbrev ObjectId := Nat

/-- A ChatMessage document: roomId and userId references, a type tag,
the text payload, an optional structured payload, the message date, and
the optional read marker.  Timestamps are modelled as integers. -/
structure ChatMessage where
  mId : ObjectId
  roomId : ObjectId
  userId : ObjectId
  mType : String
  message : String
  payload : Option String
  date : Int
  read : Option Int
deriving DecidableEq, Repr

/-- A User document, with the fields the embedded operations touch.
Optional fields model fields that may be absent on a given document. -/
structure User where
  uId : ObjectId
  username : Option String
  name : Option String
  profilePicture : Option String
  walletAddress : Option String
  amountWon : Int
deriving DecidableEq, Repr

/-- The document store: the chatmessages collection and the users collection. -/
structure Store where
  messages : List ChatMessage
  users : List User
deriving DecidableEq, Repr

/-- The requesting user passed to setMessageRead: an id and an admin flag
(the source tests the admin field for truthiness). -/
structure ReqUser where
  uId : ObjectId
  admin : Bool
deriving DecidableEq, Repr

/-- The sort key of both chat queries: date descending, embedding the
pipeline stage sorting on date with direction -1. -/
def dateDesc (a b : ChatMessage) : Prop := b.date ≤ a.date

instance : DecidableRel dateDesc := fun a b =>
  inferInstanceAs (Decidable (b.date ≤ a.date))

instance : IsTotal ChatMessage dateDesc := ⟨fun a b => le_total b.date a.date⟩

instance : IsTrans ChatMessage dateDesc := ⟨fun _ _ _ hab hbc => le_trans hbc hab⟩

/-- The denormalized sender snapshot attached to each room message. -/
structure UserSnapshot where
  username : Option String
  name : Option String
  profilePicture : Option String
deriving DecidableEq, Repr

/-- The projected shape of one element of the data page of the room query. -/
structure RoomMessageView where
  mId : ObjectId
  userId : ObjectId
  roomId : ObjectId
  mType : String
  message : String
  date : Int
  user : UserSnapshot
deriving DecidableEq, Repr

/-- The `{ total, data }` object produced by both chat queries. -/
structure PageResult (α : Type) where
  total : Nat
  data : List α
deriving DecidableEq, Repr

/-- The lookup stage joining a message's userId against the users collection
(document ids are unique, so the joined array has at most one element and
taking its first element is exact). -/
def lookupUser (st : Store) (uid : ObjectId) : Option User :=
  st.users.find? (fun u => u.uId == uid)

/-- The projected sender snapshot: field access on a missing joined user
yields missing fields (empty snapshot), never a dropped message. -/
def snapshotOf : Option User → UserSnapshot
  | none => ⟨none, none, none⟩
  | some u => ⟨u.username, u.name, u.profilePicture⟩

/-- The projection stage of the room query: message fields plus the sender
snapshot computed from the joined user array. -/
def projectRoomMessage (st : Store) (m : ChatMessage) : RoomMessageView :=
  ⟨m.mId, m.userId, m.roomId, m.mType, m.message, m.date,
    snapshotOf (lookupUser st m.userId)⟩

/-- The match stage of the room query: all messages whose roomId matches. -/
def roomMatches (st : Store) (roomId : ObjectId) : List ChatMessage :=
  st.messages.filter (fun m => m.roomId == roomId)

/-- getLatestChatMessagesByRoom: match on roomId, sort by date descending,
join the sender, facet into a total count and a skip/limit page, then
unwind the total.  Unwinding the empty total array (zero matches) removes
the single facet document, so the zero-match query yields no result
(modelled as none). -/
def getLatestChatMessagesByRoom (st : Store) (roomId : ObjectId)
    (limit : Nat := 100) (skip : Nat := 0) : Option (PageResult RoomMessageView) :=
  let sorted := List.insertionSort dateDesc (roomMatches st roomId)
  if sorted.isEmpty then none
  else some ⟨sorted.length, ((sorted.drop skip).take limit).map (projectRoomMessage st)⟩

/-- The projected shape of one element of the data page of the by-user query:
message fields plus payload, no sender snapshot. -/
structure UserMessageView where
  mId : ObjectId
  userId : ObjectId
  roomId : ObjectId
  mType : String
  message : String
  date : Int
  payload : Option String
deriving DecidableEq, Repr

/-- The projection stage of the by-user query. -/
def projectUserMessage (m : ChatMessage) : UserMessageView :=
  ⟨m.mId, m.userId, m.roomId, m.mType, m.message, m.date, m.payload⟩

/-- The match stage of the by-user query: messages of the user, with no
read marker, whose type is in the notification-type whitelist.  The
whitelist (the values of the notification constants of the commons
package, which is an external dependency) is passed as a parameter. -/
def userMatches (ntypes : List String) (st : Store) (userId : ObjectId) :
    List ChatMessage :=
  st.messages.filter
    (fun m => m.userId == userId && m.read == none && ntypes.contains m.mType)

/-- getLatestChatMessagesByUserId: same facet/unwind shape as the room
query, with the notification filter and no sender join. -/
def getLatestChatMessagesByUserId (ntypes : List String) (st : Store)
    (userId : ObjectId) (limit : Nat := 100) (skip : Nat := 0) :
    Option (PageResult UserMessageView) :=
  let sorted := List.insertionSort dateDesc (userMatches ntypes st userId)
  if sorted.isEmpty then none
  else some ⟨sorted.length, ((sorted.drop skip).take limit).map projectUserMessage⟩

/-- The errors setMessageRead can raise. -/
inductive ChatError where
  | notFound
  | forbidden
deriving DecidableEq, Repr

/-- findById on the chatmessages collection (ids are unique, so the first
match is the document). -/
def findMessage (st : Store) (mid : ObjectId) : Option ChatMessage :=
  st.messages.find? (fun m => m.mId == mid)

/-- Persisting the loaded message back: replace the document with the given
id, its read marker set to the given time. -/
def setReadFirst (mid : ObjectId) (now : Int) : List ChatMessage → List ChatMessage
  | [] => []
  | m :: rest =>
    if m.mId == mid then { m with read := some now } :: rest
    else m :: setReadFirst mid now rest

/-- setMessageRead: load by id (NotFound if absent); Forbidden unless the
requesting user is an admin or the message's sender; otherwise set read to
the current time and save.  An error leaves the store unchanged. -/
def setMessageRead (st : Store) (messageId : ObjectId) (requestingUser : ReqUser)
    (now : Int) : Option ChatError × Store :=
  match findMessage st messageId with
  | none => (some .notFound, st)
  | some message =>
    if !requestingUser.admin && message.userId != requestingUser.uId then
      (some .forbidden, st)
    else
      (none, { st with messages := setReadFirst messageId now st.messages })

/-- The sort key of the leaderboard query: amountWon descending. -/
def amountDesc (a b : User) : Prop := b.amountWon ≤ a.amountWon

instance : DecidableRel amountDesc := fun a b =>
  inferInstanceAs (Decidable (b.amountWon ≤ a.amountWon))

instance : IsTotal User amountDesc := ⟨fun a b => le_total b.amountWon a.amountWon⟩

instance : IsTrans User amountDesc := ⟨fun _ _ _ hab hbc => le_trans hbc hab⟩

/-- One leaderboard row: the username and amountWon selection (plus the id,
which the selection keeps by default). -/
structure LeaderboardEntry where
  uId : ObjectId
  username : Option String
  amountWon : Int
deriving DecidableEq, Repr

/-- The leaderboard response body. -/
structure LeaderboardResult where
  total : Nat
  users : List LeaderboardEntry
  limit : Nat
  skip : Nat
deriving DecidableEq, Repr

/-- The leaderboard filter: users possessing a username. -/
def leaderboardMatches (st : Store) : List User :=
  st.users.filter (fun u => u.username.isSome)

/-- getLeaderboard: find users with a username, sorted by amountWon
descending, sliced by skip then limit; total is computed by a separate
countDocuments call with no filter, so it counts every user document. -/
def getLeaderboard (st : Store) (limit skip : Nat) : LeaderboardResult :=
  let sorted := List.insertionSort amountDesc (leaderboardMatches st)
  { total := st.users.length
    users := ((sorted.drop skip).take limit).map (fun u => ⟨u.uId, u.username, u.amountWon⟩)
    limit := limit
    skip := skip }

/-- The responses bindWalletAddress can send. -/
inductive BindResponse where
  | status422
  | status409
  | status201 (userId : ObjectId) (walletAddress : String)
deriving DecidableEq, Repr

/-- findOne on the users collection by walletAddress. -/
def findUserByWallet (st : Store) (addr : String) : Option User :=
  st.users.find? (fun u => u.walletAddress == some addr)

/-- Modelled from the spec: userService.getUserById (the user service module
is not part of the given sources) loads the user document with the given id. -/
def findUserById (st : Store) (uid : ObjectId) : Option User :=
  st.users.find? (fun u => u.uId == uid)

/-- Modelled from the spec: userService.saveUser (the user service module is
not part of the given sources) persists the mutated user document back to
the store; here, the document with the given id with its walletAddress set. -/
def setWalletFirst (uid : ObjectId) (addr : String) : List User → List User
  | [] => []
  | u :: rest =>
    if u.uId == uid then { u with walletAddress := some addr } :: rest
    else u :: setWalletFirst uid addr rest

/-- bindWalletAddress: 422 when walletAddress is absent or empty (falsy);
409 when the wallet is bound to a different user; in every remaining path
the success response statement reads the variable user, which was declared
with a block-scoped let inside the if branch, so evaluating it throws a
ReferenceError which the surrounding catch turns into a 422 — after the
new walletAddress has already been persisted in the unbound case. -/
def bindWalletAddress (st : Store) (reqUserId : ObjectId)
    (walletAddress : Option String) : BindResponse × Store :=
  match walletAddress with
  | none => (.status422, st)
  | some addr =>
    if addr = "" then (.status422, st)
    else
      match findUserByWallet st addr with
      | some walletUser =>
        if walletUser.uId ≠ reqUserId then (.status409, st)
        else (.status422, st)
      | none =>
        match findUserById st reqUserId with
        | some _ => (.status422, { st with users := setWalletFirst reqUserId addr st.users })
        | none => (.status422, st)

/-- The outcome of the updateUser controller's authorization gate. -/
inductive UpdateOutcome where
  | status403
  | proceeded
deriving DecidableEq, Repr

/-- updateUser's authorization: reject with 403 when the requesting user's
admin field is strictly equal to the boolean false and the target user id
differs from the requester's; otherwise the update proceeds.  The admin
field is an Option Bool: none models an absent (undefined) field, which
strict equality distinguishes from false. -/
def updateUser (admin : Option Bool) (targetUserId reqUserId : ObjectId) :
    UpdateOutcome :=
  if admin == some false && targetUserId != reqUserId then .status403
  else .proceeded

/-! Concrete fixtures used by the witness theorems. -/

/-- Fixture: an unread chat message, id 1, in room 10, sent by user 2. -/
def msgA : ChatMessage := ⟨1, 10, 2, "chat", "hello", none, 5, none⟩

/-- Fixture: a store holding only msgA. -/
def stA : Store := ⟨[msgA], []⟩

/-- Fixture: the sender of msgA, as a non-admin requesting user. -/
def ruOwner : ReqUser := ⟨2, false⟩

/-- Fixture: room 10 holds three messages (dates 5, 9, 7; senders 2, 3, 2),
room 11 one more; only user 2 exists, so the sender of message 2 is absent. -/
def stB : Store :=
  ⟨[⟨1, 10, 2, "chat", "a", none, 5, none⟩,
    ⟨2, 10, 3, "chat", "b", none, 9, none⟩,
    ⟨3, 10, 2, "chat", "c", none, 7, none⟩,
    ⟨4, 11, 2, "chat", "d", none, 1, none⟩],
   [⟨2, some "alice", some "Alice", some "pic", none, 0⟩]⟩

/-- Fixture: notification whitelist for the by-user query witnesses. -/
def ntypesW : List String := ["NOTIF"]

/-- Fixture: user 2 has one unread notification (id 1); the others fail the
filter (wrong type, already read, or another user's). -/
def stC : Store :=
  ⟨[⟨1, 10, 2, "NOTIF", "x", some "p", 5, none⟩,
    ⟨2, 10, 2, "chat", "y", none, 6, none⟩,
    ⟨3, 10, 2, "NOTIF", "z", none, 7, some 4⟩,
    ⟨4, 10, 9, "NOTIF", "w", none, 8, none⟩],
   []⟩

/-- Fixture: two user documents, one with a username (amountWon 50) and one
without any username (amountWon 80). -/
def stC4 : Store :=
  ⟨[], [⟨1, some "alice", none, none, none, 50⟩, ⟨2, none, none, none, none, 80⟩]⟩

/-- Fixture: a single user, id 1, with no wallet address bound. -/
def stD : Store := ⟨[], [⟨1, some "bob", none, none, none, 0⟩]⟩

/-- Fixture: a single user, id 1, already holding wallet address 0xabc. -/
def stD2 : Store := ⟨[], [⟨1, some "bob", none, none, some "0xabc", 0⟩]⟩

/-- Fixture: the empty store. -/
def stE : Store := ⟨[], []⟩

/-- Fixture: the view of stB's message 2, whose sender (user 3) is absent
from the users collection, hence the empty snapshot. -/
def vB : RoomMessageView := ⟨2, 3, 10, "chat", "b", 9, ⟨none, none, none⟩⟩

/-- Fixture: the page returned for room 10 of stB at limit 100, skip 0:
three messages, dates descending 9, 7, 5. -/
def rB : PageResult RoomMessageView :=
  ⟨3, [vB,
    ⟨3, 2, 10, "chat", "c", 7, ⟨some "alice", some "Alice", some "pic"⟩⟩,
    ⟨1, 2, 10, "chat", "a", 5, ⟨some "alice", some "Alice", some "pic"⟩⟩]⟩

/-! Helper lemmas shared by the claim theorems. -/

/-- A member of a skip/limit page of a sorted permutation of l is a member of l. -/
theorem mem_of_mem_page {α : Type} {r : α → α → Prop} [DecidableRel r]
    {l : List α} {limit skip : Nat} {m : α}
    (h : m ∈ ((List.insertionSort r l).drop skip).take limit) : m ∈ l :=
  (List.mem_insertionSort r).mp (List.mem_of_mem_drop (List.mem_of_mem_take h))

/-- The length of a skip/limit page. -/
theorem length_page {α : Type} (l : List α) (limit skip : Nat) :
    ((l.drop skip).take limit).length = min limit (l.length - skip) := by
  simp [List.length_take, List.length_drop]

/-- A skip/limit page of a sorted list is sorted. -/
theorem pairwise_page {α : Type} {r : α → α → Prop} [DecidableRel r]
    [IsTotal α r] [IsTrans α r] (l : List α) (limit skip : Nat) :
    List.Pairwise r (((List.insertionSort r l).drop skip).take limit) :=
  List.Pairwise.sublist
    ((List.take_sublist _ _).trans (List.drop_sublist _ _))
    (List.sorted_insertionSort r l)

/-- Saving the message with its read marker set: lookups by the same id
retrieve the updated document. -/
theorem find_setReadFirst (mid : ObjectId) (now : Int) (l : List ChatMessage)
    (m : ChatMessage) (h : l.find? (fun x => x.mId == mid) = some m) :
    (setReadFirst mid now l).find? (fun x => x.mId == mid) =
      some { m with read := some now } := by
  induction l with
  | nil => simp at h
  | cons x rest ih =>
    by_cases hx : (x.mId == mid) = true
    · rw [List.find?_cons_of_pos (p := fun y : ChatMessage => y.mId == mid) rest hx] at h
      injection h with h
      subst h
      simp only [setReadFirst]
      rw [if_pos hx]
      exact List.find?_cons_of_pos (p := fun y : ChatMessage => y.mId == mid) _ hx
    · rw [List.find?_cons_of_neg (p := fun y : ChatMessage => y.mId == mid) rest hx] at h
      simp only [setReadFirst]
      rw [if_neg hx, List.find?_cons_of_neg (p := fun y : ChatMessage => y.mId == mid) _ hx]
      exact ih h

/-- Claim C1: setMessageRead fails with NotFound when no message with the id
exists; fails with Forbidden, leaving the store (hence the read field)
unchanged, when the requesting user is neither an admin nor the sender; and
otherwise succeeds, persisting the message with read set to the current time. -/
theorem C1_setMessageRead (st : Store) (mid : ObjectId) (ru : ReqUser) (now : Int) :
    (findMessage st mid = none →
      setMessageRead st mid ru now = (some ChatError.notFound, st)) ∧
    (∀ m, findMessage st mid = some m → ru.admin = false → m.userId ≠ ru.uId →
      setMessageRead st mid ru now = (some ChatError.forbidden, st)) ∧
    (∀ m, findMessage st mid = some m → (ru.admin = true ∨ m.userId = ru.uId) →
      (setMessageRead st mid ru now).1 = none ∧
      findMessage (setMessageRead st mid ru now).2 mid =
        some { m with read := some now }) := by
  refine ⟨fun h => by simp [setMessageRead, h], ?_, ?_⟩
  · intro m hm hadm hne
    simp [setMessageRead, hm, hadm, hne]
  · intro m hm hauth
    have hcond : (!ru.admin && m.userId != ru.uId) = false := by
      rcases hauth with h | h
      · simp [h]
      · simp [h]
    simp only [setMessageRead, hm, hcond, Bool.false_eq_true, if_false]
    exact ⟨trivial, find_setReadFirst mid now st.messages m hm⟩

/-- Witness for C1: on the fixture store, a call by a stranger is Forbidden
with the store untouched, a call on an absent id is NotFound, and a call by
the sender succeeds and sets read to the call time. -/
theorem C1_setMessageRead_witness :
    setMessageRead stA 1 ⟨3, false⟩ 10 = (some ChatError.forbidden, stA) ∧
    setMessageRead stA 99 ruOwner 10 = (some ChatError.notFound, stA) ∧
    ((setMessageRead stA 1 ruOwner 10).1 = none ∧
      findMessage (setMessageRead stA 1 ruOwner 10).2 1 =
        some { msgA with read := some 10 }) :=
  ⟨(C1_setMessageRead stA 1 ⟨3, false⟩ 10).2.1 msgA (by decide) rfl (by decide),
   (C1_setMessageRead stA 99 ruOwner 10).1 (by decide),
   (C1_setMessageRead stA 1 ruOwner 10).2.2 msgA (by decide) (Or.inr (by decide))⟩

/-- Characterization of the room query when at least one message matches. -/
theorem getByRoom_eq_some (st : Store) (R : ObjectId) (limit skip : Nat)
    (h : roomMatches st R ≠ []) :
    getLatestChatMessagesByRoom st R limit skip =
      some ⟨(roomMatches st R).length,
        (((List.insertionSort dateDesc (roomMatches st R)).drop skip).take limit).map
          (projectRoomMessage st)⟩ := by
  have hne : (List.insertionSort dateDesc (roomMatches st R)).isEmpty = false := by
    rw [List.isEmpty_eq_false]
    intro hnil
    exact h (List.eq_nil_of_length_eq_zero
      (by rw [← List.length_insertionSort dateDesc (roomMatches st R), hnil]; rfl))
  simp only [getLatestChatMessagesByRoom, hne, Bool.false_eq_true, if_false,
    List.length_insertionSort]

/-- Characterization of the room query when no message matches. -/
theorem getByRoom_eq_none (st : Store) (R : ObjectId) (limit skip : Nat)
    (h : roomMatches st R = []) :
    getLatestChatMessagesByRoom st R limit skip = none := by
  simp [getLatestChatMessagesByRoom, h]

/-- Claim C2 (amended): provided at least one message matches the room, the
query returns a page of length min(limit, total - skip) when skip < total
and an empty page when skip >= total, with total equal to the full match
count, identical across all limit/skip windows. -/
theorem C2_roomPagination (st : Store) (R : ObjectId) (limit skip : Nat)
    (h : roomMatches st R ≠ []) :
    ∃ r, getLatestChatMessagesByRoom st R limit skip = some r ∧
      r.total = (roomMatches st R).length ∧
      (skip < r.total → r.data.length = min limit (r.total - skip)) ∧
      (r.total ≤ skip → r.data.length = 0) ∧
      ∀ limit2 skip2 r2, getLatestChatMessagesByRoom st R limit2 skip2 = some r2 →
        r2.total = r.total := by
  refine ⟨_, getByRoom_eq_some st R limit skip h, rfl, ?_, ?_, ?_⟩
  · intro _
    simp only [List.length_map]
    rw [length_page, List.length_insertionSort]
  · intro hskip
    simp only [List.length_map]
    rw [length_page, List.length_insertionSort, Nat.sub_eq_zero_of_le hskip,
      Nat.min_zero]
  · intro l2 s2 r2 h2
    rw [getByRoom_eq_some st R l2 s2 h] at h2
    injection h2 with h2
    subst h2
    rfl

/-- Counterexample for C2: for a room with zero matching messages every skip
satisfies skip >= total, yet the query yields no result object at all
(none), so no page with data.length zero and total equal to the count is
returned. -/
theorem C2_roomPagination_cex :
    getLatestChatMessagesByRoom stE 10 100 0 = none ∧
    ¬ ∃ r, getLatestChatMessagesByRoom stE 10 100 0 = some r ∧
        r.total = 0 ∧ r.data.length = 0 := by
  have h : getLatestChatMessagesByRoom stE 10 100 0 = none := by decide
  refine ⟨h, ?_⟩
  rintro ⟨r, hr, -⟩
  rw [h] at hr
  exact Option.noConfusion hr

/-- Witness for C2 (amended): room 10 of the fixture store has three
messages, and the window limit 2, skip 2 behaves as stated. -/
theorem C2_roomPagination_witness :
    ∃ r, getLatestChatMessagesByRoom stB 10 2 2 = some r ∧
      r.total = (roomMatches stB 10).length ∧
      (2 < r.total → r.data.length = min 2 (r.total - 2)) ∧
      (r.total ≤ 2 → r.data.length = 0) ∧
      ∀ limit2 skip2 r2, getLatestChatMessagesByRoom stB 10 limit2 skip2 = some r2 →
        r2.total = r.total :=
  C2_roomPagination stB 10 2 2 (by decide)

/-- Claim C3 (amended): every successful setMessageRead call leaves the read
marker set (never reverting it to unset), but to the current time of that
call: a later successful authorized call overwrites the marker with the
later call's timestamp (last write wins) instead of preserving the
timestamp of the first successful call. -/
theorem C3_readLastWriteWins (st : Store) (mid : ObjectId) (ru : ReqUser)
    (now : Int) (h : (setMessageRead st mid ru now).1 = none) :
    ∃ m, findMessage (setMessageRead st mid ru now).2 mid = some m ∧
      m.read = some now := by
  cases hm : findMessage st mid with
  | none =>
    exfalso
    simp [setMessageRead, hm] at h
  | some m =>
    by_cases hc : (!ru.admin && m.userId != ru.uId) = true
    · exfalso
      simp [setMessageRead, hm, hc] at h
    · refine ⟨{ m with read := some now }, ?_, rfl⟩
      have h2 : (setMessageRead st mid ru now).2 =
          { st with messages := setReadFirst mid now st.messages } := by
        simp [setMessageRead, hm, hc]
      rw [h2]
      exact find_setReadFirst mid now st.messages m hm

/-- Counterexample for C3: the first successful call marks the fixture
message read at time 10; a second successful call at time 20 succeeds and
overwrites the marker to 20, so the marker no longer equals the timestamp
recorded by the first successful call. -/
theorem C3_readLastWriteWins_cex :
    (setMessageRead (setMessageRead stA 1 ruOwner 10).2 1 ruOwner 20).1 = none ∧
    (findMessage (setMessageRead stA 1 ruOwner 10).2 1).map ChatMessage.read =
      some (some 10) ∧
    (findMessage (setMessageRead (setMessageRead stA 1 ruOwner 10).2 1 ruOwner 20).2 1).map
        ChatMessage.read = some (some 20) ∧
    (findMessage (setMessageRead (setMessageRead stA 1 ruOwner 10).2 1 ruOwner 20).2 1).map
        ChatMessage.read ≠
      (findMessage (setMessageRead stA 1 ruOwner 10).2 1).map ChatMessage.read := by
  decide

/-- Witness for C3 (amended): the second successful call on the fixture
message leaves the marker set, to the second call's time 20. -/
theorem C3_readLastWriteWins_witness :
    ∃ m, findMessage
        (setMessageRead (setMessageRead stA 1 ruOwner 10).2 1 ruOwner 20).2 1 =
        some m ∧ m.read = some 20 :=
  C3_readLastWriteWins (setMessageRead stA 1 ruOwner 10).2 1 ruOwner 20 (by decide)

/-- Claim C4, evaluated at the failing input: with two user documents of
which only one has a username, the leaderboard page contains the single
matching user, but the returned total is 2 — the unfiltered document
count — instead of the size of the matching set. -/
theorem C4_leaderboardTotal_bug :
    (getLeaderboard stC4 10 0).total = 2 ∧
    (leaderboardMatches stC4).length = 1 ∧
    (getLeaderboard stC4 10 0).users.length = 1 ∧
    (getLeaderboard stC4 10 0).total ≠ (leaderboardMatches stC4).length := by
  decide

/-- Characterization of the by-user query when at least one message matches. -/
theorem getByUser_eq_some (ntypes : List String) (st : Store) (uid : ObjectId)
    (limit skip : Nat) (h : userMatches ntypes st uid ≠ []) :
    getLatestChatMessagesByUserId ntypes st uid limit skip =
      some ⟨(userMatches ntypes st uid).length,
        (((List.insertionSort dateDesc (userMatches ntypes st uid)).drop skip).take
          limit).map projectUserMessage⟩ := by
  have hne : (List.insertionSort dateDesc (userMatches ntypes st uid)).isEmpty = false := by
    rw [List.isEmpty_eq_false]
    intro hnil
    exact h (List.eq_nil_of_length_eq_zero
      (by rw [← List.length_insertionSort dateDesc (userMatches ntypes st uid), hnil]; rfl))
  simp only [getLatestChatMessagesByUserId, hne, Bool.false_eq_true, if_false,
    List.length_insertionSort]

/-- Characterization of the by-user query when no message matches. -/
theorem getByUser_eq_none (ntypes : List String) (st : Store) (uid : ObjectId)
    (limit skip : Nat) (h : userMatches ntypes st uid = []) :
    getLatestChatMessagesByUserId ntypes st uid limit skip = none := by
  simp [getLatestChatMessagesByUserId, h]

/-- Claim C5: every element of the by-user page arises from a stored message
of the given user, with no read marker, whose type is in the notification
whitelist; the projection keeps only message fields plus payload. -/
theorem C5_userMessagesFiltered (ntypes : List String) (st : Store)
    (uid : ObjectId) (limit skip : Nat) (r : PageResult UserMessageView)
    (h : getLatestChatMessagesByUserId ntypes st uid limit skip = some r) :
    ∀ v ∈ r.data, ∃ m ∈ st.messages,
      projectUserMessage m = v ∧ m.userId = uid ∧ m.read = none ∧
        m.mType ∈ ntypes := by
  by_cases hempty : userMatches ntypes st uid = []
  · rw [getByUser_eq_none ntypes st uid limit skip hempty] at h
    exact absurd h (by simp)
  · rw [getByUser_eq_some ntypes st uid limit skip hempty] at h
    injection h with h
    subst h
    intro v hv
    rcases List.mem_map.mp hv with ⟨m, hmpage, hproj⟩
    have hmem : m ∈ userMatches ntypes st uid := mem_of_mem_page hmpage
    obtain ⟨hmem', hpred⟩ := List.mem_filter.mp hmem
    simp only [Bool.and_eq_true, beq_iff_eq] at hpred
    obtain ⟨⟨h1, h2⟩, h3⟩ := hpred
    exact ⟨m, hmem', hproj, h1, h2, by simpa using h3⟩

/-- Witness for C5: the single unread notification of user 2 in the fixture
store is returned, and stems from a matching stored message. -/
theorem C5_userMessagesFiltered_witness :
    ∃ m ∈ stC.messages,
      projectUserMessage m = (⟨1, 2, 10, "NOTIF", "x", 5, some "p"⟩ : UserMessageView) ∧
      m.userId = 2 ∧ m.read = none ∧ m.mType ∈ ntypesW :=
  C5_userMessagesFiltered ntypesW stC 2 100 0
    ⟨1, [⟨1, 2, 10, "NOTIF", "x", 5, some "p"⟩]⟩ (by decide)
    ⟨1, 2, 10, "NOTIF", "x", 5, some "p"⟩ (by decide)

/-- Claim C6: each element of the room page carries the denormalized
snapshot of its sender's current profile with left-join semantics: a
message whose sender is absent is still returned, with an empty snapshot;
emptying the users collection changes neither the total nor the page
length (no message is dropped). -/
theorem C6_senderSnapshot (st : Store) (R : ObjectId) (limit skip : Nat)
    (r : PageResult RoomMessageView)
    (h : getLatestChatMessagesByRoom st R limit skip = some r) :
    (∀ v ∈ r.data, ∃ m ∈ st.messages, m.roomId = R ∧
      v = projectRoomMessage st m ∧
      v.user = snapshotOf (lookupUser st m.userId) ∧
      (lookupUser st m.userId = none → v.user = ⟨none, none, none⟩)) ∧
    (getLatestChatMessagesByRoom { st with users := [] } R limit skip).map
        (fun r2 => (r2.total, r2.data.length)) = some (r.total, r.data.length) := by
  by_cases hempty : roomMatches st R = []
  · rw [getByRoom_eq_none st R limit skip hempty] at h
    exact absurd h (by simp)
  · rw [getByRoom_eq_some st R limit skip hempty] at h
    injection h with h
    subst h
    constructor
    · intro v hv
      rcases List.mem_map.mp hv with ⟨m, hmpage, hproj⟩
      have hmem : m ∈ roomMatches st R := mem_of_mem_page hmpage
      obtain ⟨hmem', hpred⟩ := List.mem_filter.mp hmem
      refine ⟨m, hmem', by simpa using hpred, hproj.symm, ?_, ?_⟩
      · rw [← hproj]; rfl
      · intro hnone
        rw [← hproj]
        simp [projectRoomMessage, hnone, snapshotOf]
    · have hmatch : roomMatches { st with users := ([] : List User) } R =
          roomMatches st R := rfl
      rw [getByRoom_eq_some { st with users := ([] : List User) } R limit skip
        (by rw [hmatch]; exact hempty)]
      simp [List.length_map, hmatch]

/-- Witness for C6: stB's message 2, whose sender is absent from the users
collection, is still returned in the room 10 page, with an empty snapshot. -/
theorem C6_senderSnapshot_witness :
    ∃ m ∈ stB.messages, m.roomId = 10 ∧
      vB = projectRoomMessage stB m ∧
      vB.user = snapshotOf (lookupUser stB m.userId) ∧
      (lookupUser stB m.userId = none → vB.user = ⟨none, none, none⟩) :=
  (C6_senderSnapshot stB 10 100 0 rB (by decide)).1 vB (by decide)

/-- Claim C7: the data page of both chat queries is sorted by date
descending: each element's date is at least the date of every later one. -/
theorem C7_sortedByDateDesc :
    (∀ (st : Store) (R : ObjectId) (limit skip : Nat)
      (r : PageResult RoomMessageView),
      getLatestChatMessagesByRoom st R limit skip = some r →
      List.Pairwise (fun a b : Int => b ≤ a) (r.data.map RoomMessageView.date)) ∧
    (∀ (ntypes : List String) (st : Store) (uid : ObjectId) (limit skip : Nat)
      (r : PageResult UserMessageView),
      getLatestChatMessagesByUserId ntypes st uid limit skip = some r →
      List.Pairwise (fun a b : Int => b ≤ a) (r.data.map UserMessageView.date)) := by
  constructor
  · intro st R limit skip r h
    by_cases hempty : roomMatches st R = []
    · rw [getByRoom_eq_none st R limit skip hempty] at h
      exact absurd h (by simp)
    · rw [getByRoom_eq_some st R limit skip hempty] at h
      injection h with h
      subst h
      have hp := pairwise_page (r := dateDesc) (roomMatches st R) limit skip
      rw [List.map_map]
      exact List.Pairwise.map _ (fun a b hab => hab) hp
  · intro ntypes st uid limit skip r h
    by_cases hempty : userMatches ntypes st uid = []
    · rw [getByUser_eq_none ntypes st uid limit skip hempty] at h
      exact absurd h (by simp)
    · rw [getByUser_eq_some ntypes st uid limit skip hempty] at h
      injection h with h
      subst h
      have hp := pairwise_page (r := dateDesc) (userMatches ntypes st uid) limit skip
      rw [List.map_map]
      exact List.Pairwise.map _ (fun a b hab => hab) hp

/-- Witness for C7: the dates of the room 10 page of the fixture store are
9, 7, 5 — pairwise descending. -/
theorem C7_sortedByDateDesc_witness :
    List.Pairwise (fun a b : Int => b ≤ a) (rB.data.map RoomMessageView.date) :=
  C7_sortedByDateDesc.1 stB 10 100 0 rB (by decide)

/-- Claim C8: a zero-match chat query (by room or by user) yields the
undefined/empty result none — in particular not a page with total 0 and an
empty data array — within the ordinary result type, not as an error. -/
theorem C8_zeroMatch (st : Store) (R uid : ObjectId) (ntypes : List String)
    (limit skip : Nat) :
    (roomMatches st R = [] →
      getLatestChatMessagesByRoom st R limit skip = none ∧
      getLatestChatMessagesByRoom st R limit skip ≠ some ⟨0, []⟩) ∧
    (userMatches ntypes st uid = [] →
      getLatestChatMessagesByUserId ntypes st uid limit skip = none ∧
      getLatestChatMessagesByUserId ntypes st uid limit skip ≠ some ⟨0, []⟩) := by
  constructor
  · intro h
    have h0 := getByRoom_eq_none st R limit skip h
    exact ⟨h0, by rw [h0]; exact fun hc => Option.noConfusion hc⟩
  · intro h
    have h0 := getByUser_eq_none ntypes st uid limit skip h
    exact ⟨h0, by rw [h0]; exact fun hc => Option.noConfusion hc⟩

/-- Witness for C8: the empty store has no messages in room 10, and the
query returns none, not a zero page. -/
theorem C8_zeroMatch_witness :
    getLatestChatMessagesByRoom stE 10 100 0 = none ∧
    getLatestChatMessagesByRoom stE 10 100 0 ≠ some ⟨0, []⟩ :=
  (C8_zeroMatch stE 10 99 [] 100 0).1 (by decide)

/-- Persisting the user with its wallet address set: lookups by the same id
retrieve the updated document. -/
theorem find_setWalletFirst (uid : ObjectId) (addr : String) (l : List User)
    (u : User) (h : l.find? (fun x => x.uId == uid) = some u) :
    (setWalletFirst uid addr l).find? (fun x => x.uId == uid) =
      some { u with walletAddress := some addr } := by
  induction l with
  | nil => simp at h
  | cons x rest ih =>
    by_cases hx : (x.uId == uid) = true
    · rw [List.find?_cons_of_pos (p := fun y : User => y.uId == uid) rest hx] at h
      injection h with h
      subst h
      simp only [setWalletFirst]
      rw [if_pos hx]
      exact List.find?_cons_of_pos (p := fun y : User => y.uId == uid) _ hx
    · rw [List.find?_cons_of_neg (p := fun y : User => y.uId == uid) rest hx] at h
      simp only [setWalletFirst]
      rw [if_neg hx, List.find?_cons_of_neg (p := fun y : User => y.uId == uid) _ hx]
      exact ih h

/-- Claim C9: bindWalletAddress never sends its 201 success response: it
responds 422 when walletAddress is missing, 409 when the wallet is already
bound to a different user, and 422 in every remaining case (the success
statement reads a block-scoped variable that is out of scope); in the
unbound-wallet case the requesting user's new walletAddress has already
been persisted when the 422 goes out. -/
theorem C9_bindWalletAddress (st : Store) (reqUserId : ObjectId)
    (walletAddress : Option String) :
    (∀ uid addr, (bindWalletAddress st reqUserId walletAddress).1 ≠
      BindResponse.status201 uid addr) ∧
    (walletAddress = none →
      bindWalletAddress st reqUserId walletAddress = (.status422, st)) ∧
    (∀ addr owner, walletAddress = some addr → addr ≠ "" →
      findUserByWallet st addr = some owner → owner.uId ≠ reqUserId →
      bindWalletAddress st reqUserId walletAddress = (.status409, st)) ∧
    (∀ addr u, walletAddress = some addr → addr ≠ "" →
      findUserByWallet st addr = none → findUserById st reqUserId = some u →
      (bindWalletAddress st reqUserId walletAddress).1 = .status422 ∧
      (bindWalletAddress st reqUserId walletAddress).2 =
        { st with users := setWalletFirst reqUserId addr st.users } ∧
      (findUserById (bindWalletAddress st reqUserId walletAddress).2 reqUserId).map
          User.walletAddress = some (some addr)) ∧
    (∀ addr owner, walletAddress = some addr → addr ≠ "" →
      findUserByWallet st addr = some owner → owner.uId = reqUserId →
      bindWalletAddress st reqUserId walletAddress = (.status422, st)) ∧
    (∀ addr, walletAddress = some addr → addr ≠ "" →
      findUserByWallet st addr = none → findUserById st reqUserId = none →
      bindWalletAddress st reqUserId walletAddress = (.status422, st)) ∧
    (∀ addr, walletAddress = some addr → addr = "" →
      bindWalletAddress st reqUserId walletAddress = (.status422, st)) := by
  refine ⟨?_, ?_, ?_, ?_, ?_, ?_, ?_⟩
  · intro uid addr
    cases hw : walletAddress with
    | none => simp [bindWalletAddress]
    | some a =>
      by_cases ha : a = ""
      · simp [bindWalletAddress, ha]
      · cases hfw : findUserByWallet st a with
        | some wu =>
          by_cases hne : wu.uId = reqUserId
          · simp [bindWalletAddress, ha, hfw, hne]
          · simp [bindWalletAddress, ha, hfw, hne]
        | none =>
          cases hid : findUserById st reqUserId with
          | some u => simp [bindWalletAddress, ha, hfw, hid]
          | none => simp [bindWalletAddress, ha, hfw, hid]
  · intro hw
    subst hw
    rfl
  · intro addr owner hw ha hfw hne
    subst hw
    simp [bindWalletAddress, ha, hfw, hne]
  · intro addr u hw ha hfw hid
    subst hw
    have hb : bindWalletAddress st reqUserId (some addr) =
        (.status422, { st with users := setWalletFirst reqUserId addr st.users }) := by
      simp [bindWalletAddress, ha, hfw, hid]
    rw [hb]
    refine ⟨rfl, rfl, ?_⟩
    rw [show findUserById { st with users := setWalletFirst reqUserId addr st.users }
          reqUserId = some { u with walletAddress := some addr } from
        find_setWalletFirst reqUserId addr st.users u hid]
    rfl
  · intro addr owner hw ha hfw hne
    subst hw
    simp [bindWalletAddress, ha, hfw, hne]
  · intro addr hw ha hfw hid
    subst hw
    simp [bindWalletAddress, ha, hfw, hid]
  · intro addr hw ha
    subst hw
    subst ha
    rfl

/-- Witness for C9: binding a fresh wallet for the fixture user yields 422,
yet the wallet address is persisted on the user document; a missing
walletAddress yields 422 with the store untouched; rebinding a wallet
already held by the requester yields 422 with the store untouched; and an
unbound wallet with an absent requester yields 422 with the store
untouched. -/
theorem C9_bindWalletAddress_witness :
    ((bindWalletAddress stD 1 (some "0xabc")).1 = BindResponse.status422 ∧
      (bindWalletAddress stD 1 (some "0xabc")).2 =
        { stD with users := setWalletFirst 1 "0xabc" stD.users } ∧
      (findUserById (bindWalletAddress stD 1 (some "0xabc")).2 1).map
          User.walletAddress = some (some "0xabc")) ∧
    bindWalletAddress stD 1 none = (.status422, stD) ∧
    bindWalletAddress stD2 1 (some "0xabc") = (.status422, stD2) ∧
    bindWalletAddress stE 7 (some "0xdef") = (.status422, stE) :=
  ⟨(C9_bindWalletAddress stD 1 (some "0xabc")).2.2.2.1 "0xabc"
      ⟨1, some "bob", none, none, none, 0⟩ rfl (by decide) (by decide) (by decide),
   (C9_bindWalletAddress stD 1 none).2.1 rfl,
   (C9_bindWalletAddress stD2 1 (some "0xabc")).2.2.2.2.1 "0xabc"
      ⟨1, some "bob", none, none, some "0xabc", 0⟩ rfl (by decide) (by decide) rfl,
   (C9_bindWalletAddress stE 7 (some "0xdef")).2.2.2.2.2.1 "0xdef"
      rfl (by decide) (by decide) (by decide)⟩

/-- Claim C10: updateUser rejects with 403 exactly when the requesting
user's admin field is the boolean false and the target user id differs from
the requester's own id; in particular an absent (undefined) admin field
passes the check and the update proceeds for any target. -/
theorem C10_updateUserAuth (admin : Option Bool) (targetUserId reqUserId : ObjectId) :
    (updateUser admin targetUserId reqUserId = .status403 ↔
      (admin = some false ∧ targetUserId ≠ reqUserId)) ∧
    (admin = none → updateUser admin targetUserId reqUserId = .proceeded) := by
  constructor
  · by_cases h1 : admin = some false
    · by_cases h2 : targetUserId = reqUserId
      · simp [updateUser, h1, h2]
      · simp [updateUser, h1, h2]
    · simp [updateUser, h1]
  · intro h
    subst h
    simp [updateUser]

/-- Witness for C10: an undefined admin field with a foreign target id still
proceeds. -/
theorem C10_updateUserAuth_witness : updateUser none 5 6 = UpdateOutcome.proceeded :=
  (C10_updateUserAuth none 5 6).2 rfl

end Wallfair
